import Mathlib

/-!
Verification of the safe-metrics core of the stock-tracker dashboard
(src/app.py).  The pandas DataFrame returned by the market-data provider is
modelled as a list of named columns of cells; a cell is either a rational
number or NaN (the provider's missing-value representation).  Python values
flowing through the metric code are modelled by `Val` (a number, NaN, or a
string such as the "N/A" marker).  Exceptions that the Python code can raise
(KeyError on a missing column, IndexError on a bad positional index,
ValueError on formatting a string with a numeric format code) are modelled
with `Except PyErr`; a bare `except:` in the source corresponds to matching
away the error branch.
-/

namespace StockTracker

/-- Python exceptions that the modelled code can raise. -/
inductive PyErr where
  | keyError
  | indexError
  | typeError
  | valueError
deriving DecidableEq

/-- One cell of a DataFrame column: a numeric value, or `none` for a
NaN / missing numeric entry. -/
abbrev Cell := Option ℚ

/-- A Python value as it flows through the metric code: a number, a NaN
(non-numeric) value, or a string (e.g. the "N/A" marker or a formatted
result). -/
inductive Val where
  | num : ℚ → Val
  | nonNum : Val
  | str : String → Val
deriving DecidableEq

/-- A pandas DataFrame: an index length (`nrows`, the number of bars) and a
list of named columns, each an ordered list of cells (oldest bar first,
most recent bar last). -/
structure DF where
  nrows : ℕ
  cols : List (String × List Cell)
deriving DecidableEq

/-- `df.empty` in pandas: true when either axis has length zero. -/
def DF.emptyB (d : DF) : Bool := d.nrows == 0 || d.cols.isEmpty

/-- Column lookup, `data[column]` without the KeyError: `none` models the
column being absent (pandas raises KeyError there). -/
def getCol (d : DF) (c : String) : Option (List Cell) :=
  (d.cols.find? (fun p => p.1 == c)).map Prod.snd

/-- The Python value read out of a cell: a NaN cell is returned as the NaN
value, not as a failure. -/
def cellVal : Cell → Val
  | some q => Val.num q
  | none => Val.nonNum

/-- Python `v == s` for a value against a string literal: only a string can
equal a string; numbers and NaN compare unequal to any string. -/
def valEqStr (v : Val) (s : String) : Bool :=
  match v with
  | Val.str t => t == s
  | _ => false

/-- Positional series indexing `s[i]` with Python negative-index semantics
(the classic pandas positional fallback on a non-integer index): an
out-of-range position raises. -/
def sget (col : List Cell) (i : ℤ) : Except PyErr Cell :=
  if 0 ≤ i then
    match col.get? i.toNat with
    | some c => Except.ok c
    | none => Except.error PyErr.indexError
  else if 0 ≤ (col.length : ℤ) + i then
    match col.get? ((col.length : ℤ) + i).toNat with
    | some c => Except.ok c
    | none => Except.error PyErr.indexError
  else Except.error PyErr.indexError

/-- Floor of a rational, computed from its reduced numerator/denominator. -/
def qfloor (x : ℚ) : ℤ := Int.fdiv x.num x.den

/-- Round half to even (banker's rounding, as Python string formatting
rounds) to the nearest integer. -/
def rhe (x : ℚ) : ℤ :=
  let f := qfloor x
  let t := x - (f : ℚ)
  if t < 1 / 2 then f
  else if (1 : ℚ) / 2 < t then f + 1
  else if f % 2 = 0 then f else f + 1

/-- Two-digit zero-padded rendering of a natural number below 100. -/
def pad2 (n : ℕ) : String := if n < 10 then "0" ++ toString n else toString n

/-- Python `f"{q:.2f}"` on an exact rational: round to two decimal places
(half to even) and render with exactly two fraction digits. -/
def fmt2 (q : ℚ) : String :=
  let r := rhe (q * 100)
  (if r < 0 then "-" else "") ++ toString (r.natAbs / 100) ++ "." ++ pad2 (r.natAbs % 100)

/-- Insert thousands separators into a digit string given in reversed order. -/
def groupRev : List Char → List Char
  | a :: b :: c :: d :: rest => a :: b :: c :: ',' :: groupRev (d :: rest)
  | l => l

/-- Insert thousands separators into a decimal digit string. -/
def commaGroup (s : String) : String :=
  String.mk ((groupRev s.toList.reverse).reverse)

/-- Python `f"{q:,.0f}"` on an exact rational: round to an integer (half to
even) and render with thousands separators. -/
def fmtVol (q : ℚ) : String :=
  let r := rhe q
  (if r < 0 then "-" else "") ++ commaGroup (toString r.natAbs)

/-- Render a cell under `f"{v:.2f}"`: a NaN cell formats as "nan". -/
def fmtCell2 : Cell → String
  | some q => fmt2 q
  | none => "nan"

/-- Python `f"${v:.2f}"` applied to a metric value: numbers format normally,
NaN formats as "$nan", and a string raises ValueError (unknown format code
for str). -/
def pyFormatMoney (v : Val) : Except PyErr Val :=
  match v with
  | Val.num q => Except.ok (Val.str ("$" ++ fmt2 q))
  | Val.nonNum => Except.ok (Val.str "$nan")
  | Val.str _ => Except.error PyErr.valueError

/-- Python `f"{v:,.0f}"` applied to a metric value: numbers format with
group separators, NaN formats as "nan", and a string raises ValueError. -/
def pyFormatVolume (v : Val) : Except PyErr Val :=
  match v with
  | Val.num q => Except.ok (Val.str (fmtVol q))
  | Val.nonNum => Except.ok (Val.str "nan")
  | Val.str _ => Except.error PyErr.valueError

/-- The numeric entries of a column (pandas aggregations skip NaN). -/
def numCells (col : List Cell) : List ℚ := col.filterMap id

/-- Maximum of a list of rationals, `none` on the empty list. -/
def listMax : List ℚ → Option ℚ
  | [] => none
  | q :: rest =>
    match listMax rest with
    | none => some q
    | some m => some (max q m)

/-- Minimum of a list of rationals, `none` on the empty list. -/
def listMin : List ℚ → Option ℚ
  | [] => none
  | q :: rest =>
    match listMin rest with
    | none => some q
    | some m => some (min q m)

/-- `series.max()` in pandas: the maximum over the numeric cells, NaN when
there is none (empty or all-NaN column). -/
def seriesMax (col : List Cell) : Cell := listMax (numCells col)

/-- `series.min()` in pandas: the minimum over the numeric cells, NaN when
there is none. -/
def seriesMin (col : List Cell) : Cell := listMin (numCells col)

/-- src/app.py lines 60-67, `get_safe_value(data, column, index=-1,
default="N/A")`: return `default` when the frame is None or empty, try
`data[column][index]` and return `default` on any exception (missing column
raises KeyError, bad position raises IndexError; both are caught by the
bare `except:`).  A NaN cell is a value, not an exception, and is returned
as-is. -/
def get_safe_value (data : Option DF) (column : String) (index : ℤ) (defv : Val) : Val :=
  match data with
  | none => defv
  | some d =>
    if d.emptyB then defv
    else
      match getCol d column with
      | none => defv
      | some col =>
        match sget col index with
        | Except.error _ => defv
        | Except.ok c => cellVal c

/-- src/app.py lines 69-77, `calculate_daily_change(data)`: "N/A" when the
frame is None, empty or has fewer than two rows, otherwise
`((close[-1] - close[-2]) / close[-2]) * 100` formatted as
`f"{change:.2f}%"`.  A missing Close column or an out-of-range position
raises inside the `try` and is caught ("N/A").  Float arithmetic on a NaN
operand yields NaN ("nan%"), and division by a zero previous close yields
+inf, -inf or NaN ("inf%", "-inf%", "nan%"), which the format call renders
without raising. -/
def calculate_daily_change (data : Option DF) : String :=
  match data with
  | none => "N/A"
  | some d =>
    if d.emptyB then "N/A"
    else if d.nrows < 2 then "N/A"
    else
      match getCol d "Close" with
      | none => "N/A"
      | some col =>
        match sget col (-1), sget col (-2) with
        | Except.ok c1, Except.ok c2 =>
          match c1, c2 with
          | some x, some y =>
            if y = 0 then
              (if x - y = 0 then "nan%" else if 0 < x - y then "inf%" else "-inf%")
            else fmt2 ((x - y) / y * 100) ++ "%"
          | _, _ => "nan%"
        | _, _ => "N/A"

/-- src/app.py lines 28-39, `load_stock_data(ticker, period)`: the provider
interaction `yf.Ticker(ticker).history(period)` is abstracted as its
outcome, either a raised exception or a returned frame.  An exception is
caught and converted to None (with an error notice); an empty frame is
converted to None (with a warning); otherwise the frame is returned. -/
def load_stock_data (histRes : Except PyErr DF) : Option DF :=
  match histRes with
  | Except.error _ => none
  | Except.ok hist => if hist.emptyB then none else some hist

/-- src/app.py lines 117-119 and 142-144: the Current Price field.
`current_price = get_safe_value(data, 'Close')`; if it is not "N/A" it is
re-bound to `f"${current_price:.2f}"`. -/
def priceField (data : DF) : Except PyErr Val :=
  let v := get_safe_value (some data) "Close" (-1) (Val.str "N/A")
  if valEqStr v "N/A" then Except.ok v else pyFormatMoney v

/-- src/app.py lines 124-126 and 154-156: the Volume field.
`volume = get_safe_value(data, 'Volume')`; if it is not "N/A" it is
re-bound to `f"{volume:,.0f}"`. -/
def volumeField (data : DF) : Except PyErr Val :=
  let v := get_safe_value (some data) "Volume" (-1) (Val.str "N/A")
  if valEqStr v "N/A" then Except.ok v else pyFormatVolume v

/-- src/app.py lines 129-131 and 146-148: the 52W/Year High field.
`high = get_safe_value(data, 'High', default=0)`; if it is not "N/A"
(which, since the default is the number 0, it never is) it is re-bound to
`f"${data['High'].max():.2f}"` — and `data['High']` raises KeyError when
the High column is absent, outside any try/except. -/
def yearHighField (data : DF) : Except PyErr Val :=
  let v := get_safe_value (some data) "High" (-1) (Val.num 0)
  if valEqStr v "N/A" then Except.ok v
  else
    match getCol data "High" with
    | none => Except.error PyErr.keyError
    | some col => Except.ok (Val.str ("$" ++ fmtCell2 (seriesMax col)))

/-- src/app.py lines 150-152: the Year Low field, symmetric to the high
field with `data['Low'].min()`. -/
def yearLowField (data : DF) : Except PyErr Val :=
  let v := get_safe_value (some data) "Low" (-1) (Val.num 0)
  if valEqStr v "N/A" then Except.ok v
  else
    match getCol data "Low" with
    | none => Except.error PyErr.keyError
    | some col => Except.ok (Val.str ("$" ++ fmtCell2 (seriesMin col)))

/-- src/app.py lines 114-132 (Charts tab): the four metric tiles computed
for one instrument, in source order — Current Price, Daily Change, Volume,
52W High.  An uncaught exception in any tile aborts the computation. -/
def tile_metrics (data : DF) : Except PyErr (Val × String × Val × Val) :=
  match priceField data with
  | Except.error e => Except.error e
  | Except.ok cp =>
    match volumeField data with
    | Except.error e => Except.error e
    | Except.ok vol =>
      match yearHighField data with
      | Except.error e => Except.error e
      | Except.ok yh => Except.ok (cp, calculate_daily_change (some data), vol, yh)

/-- One row of the Summary tab's table (src/app.py lines 158-166). -/
structure Row where
  company : String
  ticker : String
  current_price : Val
  daily_change : String
  volume : Val
  year_high : Val
  year_low : Val
deriving DecidableEq

/-- src/app.py lines 141-166: the per-instrument body of the Summary loop,
run when the fetched frame is not None.  Fields are computed in source
order (price, high, low, volume, then the daily change inside the dict
literal); an uncaught exception aborts the whole row (and the script). -/
def build_row (company ticker : String) (data : DF) : Except PyErr Row :=
  match priceField data with
  | Except.error e => Except.error e
  | Except.ok cp =>
    match yearHighField data with
    | Except.error e => Except.error e
    | Except.ok yh =>
      match yearLowField data with
      | Except.error e => Except.error e
      | Except.ok yl =>
        match volumeField data with
        | Except.error e => Except.error e
        | Except.ok vol =>
          Except.ok
            { company := company, ticker := ticker, current_price := cp,
              daily_change := calculate_daily_change (some data),
              volume := vol, year_high := yh, year_low := yl }

/-- src/app.py lines 136-166: the Summary loop over the selected companies.
`tickers` is the MINING_STOCKS lookup, `provider` the abstracted outcome of
the data fetch per ticker.  A company whose fetch yields None is skipped;
otherwise its row is appended. -/
def build_summary (tickers : String → String) (provider : String → Except PyErr DF) :
    List String → Except PyErr (List Row)
  | [] => Except.ok []
  | c :: rest =>
    match load_stock_data (provider (tickers c)) with
    | none => build_summary tickers provider rest
    | some d =>
      match build_row c (tickers c) d with
      | Except.error e => Except.error e
      | Except.ok r =>
        match build_summary tickers provider rest with
        | Except.error e => Except.error e
        | Except.ok rs => Except.ok (r :: rs)

/-- What the Summary tab finally shows (src/app.py lines 168-172): either
the table of rows, or — exactly when no row was collected — a single
warning notice. -/
inductive SummaryView where
  | table : List Row → SummaryView
  | notice : String → SummaryView
deriving DecidableEq

/-- src/app.py lines 168-172: `if summary_data: st.dataframe(...) else:
st.warning("No data available for the selected stocks")`. -/
def render_summary (rows : List Row) : SummaryView :=
  if rows.isEmpty then SummaryView.notice "No data available for the selected stocks"
  else SummaryView.table rows

deriving instance DecidableEq for Except

/-! Concrete frames used as counterexamples and witnesses. -/

/-- A frame with zero rows and no columns, as `hist` when the provider has
no data. -/
def dfEmpty : DF := { nrows := 0, cols := [] }

/-- A non-empty single-bar frame that has a Close column but no High or
Low column. -/
def dfCloseOnly : DF := { nrows := 1, cols := [("Close", [some 100])] }

/-- A non-empty single-bar frame with Close present and High absent,
exercising the Summary-row path. -/
def dfCloseVol : DF := { nrows := 1, cols := [("Close", [some 7]), ("Volume", [some 3])] }

/-- Two bars whose previous (second-to-last) close is exactly 0. -/
def dfZeroPrev : DF := { nrows := 2, cols := [("Close", [some 0, some 110])] }

/-- A single bar whose Close cell is NaN (non-numeric). -/
def dfNaNClose : DF := { nrows := 1, cols := [("Close", [none])] }

/-- The two-bar scenario series with closes 100 then 110. -/
def dfScenario : DF := { nrows := 2, cols := [("Close", [some 100, some 110])] }

/-- The single-bar scenario series with close 50, high 55, low 48,
volume 1000. -/
def dfOneBar : DF :=
  { nrows := 1,
    cols := [("Close", [some 50]), ("High", [some 55]), ("Low", [some 48]),
             ("Volume", [some 1000])] }

/-- A three-bar frame with High and Low columns. -/
def dfThreeBars : DF :=
  { nrows := 3,
    cols := [("High", [some 55, some 60, some 52]), ("Low", [some 48, some 47, some 50])] }

/-- A non-empty frame with only a Volume column: both the Close and the
High extraction fail on it. -/
def dfVolOnly : DF := { nrows := 1, cols := [("Volume", [some 5])] }

/-- A non-empty frame whose latest High is genuinely the price 0. -/
def dfZeroHigh : DF := { nrows := 1, cols := [("High", [some 0])] }

/-- Frames agreeing on the Close column but differing on Volume: used to
exhibit field independence. -/
def dfIndepA : DF := { nrows := 1, cols := [("Close", [some 10]), ("Volume", [some 5])] }

/-- See dfIndepA. -/
def dfIndepB : DF := { nrows := 1, cols := [("Close", [some 10]), ("Volume", [none])] }

/-! Helper lemmas. -/

theorem cellVal_ne_str (c : Cell) (s : String) : cellVal c ≠ Val.str s := by
  cases c <;> simp [cellVal]

theorem valEqStr_cellVal (c : Cell) (s : String) : valEqStr (cellVal c) s = false := by
  cases c <;> rfl

/-- `get_safe_value` either returns the caller's default or the value of
some cell. -/
theorem gsv_cases (data : Option DF) (column : String) (i : ℤ) (defv : Val) :
    get_safe_value data column i defv = defv ∨
    ∃ c : Cell, get_safe_value data column i defv = cellVal c := by
  cases data with
  | none => exact Or.inl rfl
  | some d =>
    by_cases hd : d.emptyB = true
    · left; simp only [get_safe_value, if_pos hd]
    · simp only [get_safe_value, if_neg hd]
      split
      · exact Or.inl rfl
      · split
        · exact Or.inl rfl
        · exact Or.inr ⟨_, rfl⟩

/-- With a numeric default, `get_safe_value` never returns a string, so the
`!= "N/A"` test in the dashboard's High/Low paths always passes. -/
theorem gsv_num_default_ne_NA (d : DF) (column : String) (i : ℤ) (q : ℚ) :
    valEqStr (get_safe_value (some d) column i (Val.num q)) "N/A" = false := by
  rcases gsv_cases (some d) column i (Val.num q) with h | ⟨c, h⟩
  · rw [h]; rfl
  · rw [h]; exact valEqStr_cellVal c "N/A"

theorem sget_last (col : List Cell) (c : Cell) (h1 : 1 ≤ col.length)
    (h : col.get? (col.length - 1) = some c) : sget col (-1) = Except.ok c := by
  unfold sget
  rw [if_neg (by decide : ¬ (0 : ℤ) ≤ -1)]
  rw [if_pos (by omega : (0 : ℤ) ≤ (col.length : ℤ) + (-1))]
  have ht : ((col.length : ℤ) + (-1)).toNat = col.length - 1 := by omega
  rw [ht, h]

theorem sget_prev (col : List Cell) (c : Cell) (h2 : 2 ≤ col.length)
    (h : col.get? (col.length - 2) = some c) : sget col (-2) = Except.ok c := by
  unfold sget
  rw [if_neg (by decide : ¬ (0 : ℤ) ≤ -2)]
  rw [if_pos (by omega : (0 : ℤ) ≤ (col.length : ℤ) + (-2))]
  have ht : ((col.length : ℤ) + (-2)).toNat = col.length - 2 := by omega
  rw [ht, h]

theorem listMax_cons_ne_none (a : ℚ) (l : List ℚ) : listMax (a :: l) ≠ none := by
  simp only [listMax]
  cases listMax l <;> simp

theorem listMin_cons_ne_none (a : ℚ) (l : List ℚ) : listMin (a :: l) ≠ none := by
  simp only [listMin]
  cases listMin l <;> simp

theorem listMax_mem : ∀ (l : List ℚ) (m : ℚ), listMax l = some m → m ∈ l := by
  intro l
  induction l with
  | nil => intro m h; simp [listMax] at h
  | cons q rest ih =>
    intro m h
    simp only [listMax] at h
    cases hr : listMax rest with
    | none =>
      rw [hr] at h
      injection h with h
      subst h
      exact List.mem_cons_self _ _
    | some mr =>
      rw [hr] at h
      injection h with h
      subst h
      rcases max_choice q mr with hc | hc
      · rw [hc]; exact List.mem_cons_self _ _
      · rw [hc]; exact List.mem_cons_of_mem _ (ih _ hr)

theorem listMax_le : ∀ (l : List ℚ) (m q : ℚ), listMax l = some m → q ∈ l → q ≤ m := by
  intro l
  induction l with
  | nil => intro m q _ hq; simp at hq
  | cons a rest ih =>
    intro m q h hq
    simp only [listMax] at h
    cases hr : listMax rest with
    | none =>
      rw [hr] at h
      injection h with h
      subst h
      rcases List.mem_cons.mp hq with hqa | hqr
      · subst hqa; exact le_refl _
      · cases rest with
        | nil => simp at hqr
        | cons b t => exact absurd hr (listMax_cons_ne_none b t)
    | some mr =>
      rw [hr] at h
      injection h with h
      subst h
      rcases List.mem_cons.mp hq with hqa | hqr
      · subst hqa; exact le_max_left _ _
      · exact le_trans (ih mr q hr hqr) (le_max_right _ _)

theorem listMin_mem : ∀ (l : List ℚ) (m : ℚ), listMin l = some m → m ∈ l := by
  intro l
  induction l with
  | nil => intro m h; simp [listMin] at h
  | cons q rest ih =>
    intro m h
    simp only [listMin] at h
    cases hr : listMin rest with
    | none =>
      rw [hr] at h
      injection h with h
      subst h
      exact List.mem_cons_self _ _
    | some mr =>
      rw [hr] at h
      injection h with h
      subst h
      rcases min_choice q mr with hc | hc
      · rw [hc]; exact List.mem_cons_self _ _
      · rw [hc]; exact List.mem_cons_of_mem _ (ih _ hr)

theorem listMin_ge : ∀ (l : List ℚ) (m q : ℚ), listMin l = some m → q ∈ l → m ≤ q := by
  intro l
  induction l with
  | nil => intro m q _ hq; simp at hq
  | cons a rest ih =>
    intro m q h hq
    simp only [listMin] at h
    cases hr : listMin rest with
    | none =>
      rw [hr] at h
      injection h with h
      subst h
      rcases List.mem_cons.mp hq with hqa | hqr
      · subst hqa; exact le_refl _
      · cases rest with
        | nil => simp at hqr
        | cons b t => exact absurd hr (listMin_cons_ne_none b t)
    | some mr =>
      rw [hr] at h
      injection h with h
      subst h
      rcases List.mem_cons.mp hq with hqa | hqr
      · subst hqa; exact min_le_left _ _
      · exact le_trans (min_le_right _ _) (ih mr q hr hqr)

/-- The Current Price field never raises: the extracted value is either the
"N/A" default (kept as-is) or a numeric/NaN cell (formatted without error). -/
theorem priceField_ok (d : DF) : ∃ v, priceField d = Except.ok v := by
  simp only [priceField]
  rcases gsv_cases (some d) "Close" (-1) (Val.str "N/A") with h | ⟨c, h⟩
  · rw [h]
    exact ⟨Val.str "N/A", rfl⟩
  · rw [h, valEqStr_cellVal, if_neg Bool.false_ne_true]
    cases c with
    | some q => exact ⟨_, rfl⟩
    | none => exact ⟨_, rfl⟩

/-- The Volume field never raises, for the same reason. -/
theorem volumeField_ok (d : DF) : ∃ v, volumeField d = Except.ok v := by
  simp only [volumeField]
  rcases gsv_cases (some d) "Volume" (-1) (Val.str "N/A") with h | ⟨c, h⟩
  · rw [h]
    exact ⟨Val.str "N/A", rfl⟩
  · rw [h, valEqStr_cellVal, if_neg Bool.false_ne_true]
    cases c with
    | some q => exact ⟨_, rfl⟩
    | none => exact ⟨_, rfl⟩

/-- When the High column is present, the Year High field formats the
column-wide maximum. -/
theorem yearHighField_eq (d : DF) (col : List Cell) (hcol : getCol d "High" = some col) :
    yearHighField d = Except.ok (Val.str ("$" ++ fmtCell2 (seriesMax col))) := by
  simp only [yearHighField]
  rw [gsv_num_default_ne_NA, if_neg Bool.false_ne_true, hcol]

/-- When the High column is absent, the Year High field raises KeyError:
the numeric default 0 never equals "N/A", so `data['High'].max()` is
evaluated outside any try/except. -/
theorem yearHighField_absent (d : DF) (hcol : getCol d "High" = none) :
    yearHighField d = Except.error PyErr.keyError := by
  simp only [yearHighField]
  rw [gsv_num_default_ne_NA, if_neg Bool.false_ne_true, hcol]

/-- When the Low column is present, the Year Low field formats the
column-wide minimum. -/
theorem yearLowField_eq (d : DF) (col : List Cell) (hcol : getCol d "Low" = some col) :
    yearLowField d = Except.ok (Val.str ("$" ++ fmtCell2 (seriesMin col))) := by
  simp only [yearLowField]
  rw [gsv_num_default_ne_NA, if_neg Bool.false_ne_true, hcol]

/-- When the Low column is absent, the Year Low field raises KeyError. -/
theorem yearLowField_absent (d : DF) (hcol : getCol d "Low" = none) :
    yearLowField d = Except.error PyErr.keyError := by
  simp only [yearLowField]
  rw [gsv_num_default_ne_NA, if_neg Bool.false_ne_true, hcol]

/-- A summary row is built without an exception whenever the frame has both
a High and a Low column, and it records the company name. -/
theorem build_row_ok (c t : String) (d : DF) (colH colL : List Cell)
    (hH : getCol d "High" = some colH) (hL : getCol d "Low" = some colL) :
    ∃ r, build_row c t d = Except.ok r ∧ r.company = c := by
  obtain ⟨cp, hcp⟩ := priceField_ok d
  obtain ⟨vol, hvol⟩ := volumeField_ok d
  have hyh := yearHighField_eq d colH hH
  have hyl := yearLowField_eq d colL hL
  refine ⟨{ company := c, ticker := t, current_price := cp,
            daily_change := calculate_daily_change (some d), volume := vol,
            year_high := Val.str ("$" ++ fmtCell2 (seriesMax colH)),
            year_low := Val.str ("$" ++ fmtCell2 (seriesMin colL)) }, ?_, rfl⟩
  simp only [build_row, hcp, hyh, hyl, hvol]

/-- `get_safe_value` reads a frame only through its emptiness flag and the
requested column. -/
theorem gsv_congr (d₁ d₂ : DF) (column : String) (i : ℤ) (defv : Val)
    (he : d₁.emptyB = d₂.emptyB) (hc : getCol d₁ column = getCol d₂ column) :
    get_safe_value (some d₁) column i defv = get_safe_value (some d₂) column i defv := by
  simp only [get_safe_value]
  rw [he, hc]

theorem priceField_congr (d₁ d₂ : DF) (he : d₁.emptyB = d₂.emptyB)
    (hc : getCol d₁ "Close" = getCol d₂ "Close") : priceField d₁ = priceField d₂ := by
  simp only [priceField]
  rw [gsv_congr d₁ d₂ "Close" (-1) (Val.str "N/A") he hc]

theorem volumeField_congr (d₁ d₂ : DF) (he : d₁.emptyB = d₂.emptyB)
    (hc : getCol d₁ "Volume" = getCol d₂ "Volume") : volumeField d₁ = volumeField d₂ := by
  simp only [volumeField]
  rw [gsv_congr d₁ d₂ "Volume" (-1) (Val.str "N/A") he hc]

theorem yearHighField_congr (d₁ d₂ : DF) (he : d₁.emptyB = d₂.emptyB)
    (hc : getCol d₁ "High" = getCol d₂ "High") : yearHighField d₁ = yearHighField d₂ := by
  simp only [yearHighField]
  rw [gsv_congr d₁ d₂ "High" (-1) (Val.num 0) he hc, hc]

theorem yearLowField_congr (d₁ d₂ : DF) (he : d₁.emptyB = d₂.emptyB)
    (hc : getCol d₁ "Low" = getCol d₂ "Low") : yearLowField d₁ = yearLowField d₂ := by
  simp only [yearLowField]
  rw [gsv_congr d₁ d₂ "Low" (-1) (Val.num 0) he hc, hc]

theorem daily_change_congr (d₁ d₂ : DF) (he : d₁.emptyB = d₂.emptyB)
    (hn : d₁.nrows = d₂.nrows) (hc : getCol d₁ "Close" = getCol d₂ "Close") :
    calculate_daily_change (some d₁) = calculate_daily_change (some d₂) := by
  simp only [calculate_daily_change]
  rw [he, hn, hc]

/-- On a non-empty frame with at least two rows, a Close column matching
the row count, numeric last and second-to-last closes and a non-zero
previous close, `calculate_daily_change` computes the percentage-change
formula formatted to two decimal places. -/
theorem daily_change_formula (d : DF) (col : List Cell) (x y : ℚ)
    (he : d.emptyB = false) (h2 : 2 ≤ d.nrows)
    (hcol : getCol d "Close" = some col) (hlen : col.length = d.nrows)
    (hx : col.get? (col.length - 1) = some (some x))
    (hy : col.get? (col.length - 2) = some (some y))
    (hnz : y ≠ 0) :
    calculate_daily_change (some d) = fmt2 ((x - y) / y * 100) ++ "%" := by
  have hl2 : 2 ≤ col.length := by omega
  have s1 : sget col (-1) = Except.ok (some x) := sget_last col (some x) (by omega) hx
  have s2 : sget col (-2) = Except.ok (some y) := sget_prev col (some y) hl2 hy
  have hn2 : ¬ d.nrows < 2 := by omega
  simp only [calculate_daily_change]
  rw [he, if_neg Bool.false_ne_true, if_neg hn2]
  simp only [hcol, s1, s2, if_neg hnz]

/-! The claims. -/

/-- C1: the claim says computing the display metrics never raises for any
TimeSeries shape, including missing columns.  The code violates it: on a
non-empty frame without a High column, the High extraction returns the
default number 0, the `!= "N/A"` test is then true, and
`data['High'].max()` raises an uncaught KeyError — both in the Charts-tab
tile block and in the Summary-row builder. -/
theorem claim1_metrics_raise_on_missing_column :
    tile_metrics dfCloseOnly = Except.error PyErr.keyError ∧
    build_row "BHP Group" "BHP.AX" dfCloseOnly = Except.error PyErr.keyError :=
  ⟨by decide, by decide⟩

/-- C2: for a non-empty frame with at least two bars, a Close column
matching the row count, numeric latest and previous closes and a non-zero
previous close, `calculate_daily_change` returns
`(close[-1] - close[-2]) / close[-2] * 100` rounded to two decimal places
and suffixed with a percent sign. -/
theorem claim2_daily_change_percent (d : DF) (col : List Cell) (x y : ℚ)
    (he : d.emptyB = false) (h2 : 2 ≤ d.nrows)
    (hcol : getCol d "Close" = some col) (hlen : col.length = d.nrows)
    (hx : col.get? (col.length - 1) = some (some x))
    (hy : col.get? (col.length - 2) = some (some y))
    (hnz : y ≠ 0) :
    calculate_daily_change (some d) = fmt2 ((x - y) / y * 100) ++ "%" :=
  daily_change_formula d col x y he h2 hcol hlen hx hy hnz

/-- C2 witness: the spec scenario - closes 100 then 110 give "10.00%". -/
theorem claim2_witness : calculate_daily_change (some dfScenario) = "10.00%" := by
  have h := claim2_daily_change_percent dfScenario [some 100, some 110] 110 100
    rfl (by decide) rfl rfl rfl rfl (by norm_num)
  rw [h]
  norm_num [fmt2, rhe, qfloor]
  decide

/-- C3 counterexample: the claim says the period extremum returns the
"unavailable" marker when the field is entirely absent; on a non-empty
frame without a High column the operation instead raises KeyError. -/
theorem claim3_counterexample : yearHighField dfVolOnly = Except.error PyErr.keyError := by
  decide

/-- C3 amended: on a frame whose High (resp. Low) column is present, the
Year High (resp. Year Low) operation returns the formatted maximum
(resp. minimum) of the column's numeric values over all bars; when the
column is absent the operation raises KeyError instead of returning an
unavailable marker. -/
theorem claim3_period_extremum (d : DF) (colH colL : List Cell) (mh ml : ℚ)
    (hH : getCol d "High" = some colH) (hL : getCol d "Low" = some colL)
    (hmh : seriesMax colH = some mh) (hml : seriesMin colL = some ml) :
    (yearHighField d = Except.ok (Val.str ("$" ++ fmt2 mh)) ∧
      mh ∈ numCells colH ∧ ∀ q ∈ numCells colH, q ≤ mh) ∧
    (yearLowField d = Except.ok (Val.str ("$" ++ fmt2 ml)) ∧
      ml ∈ numCells colL ∧ ∀ q ∈ numCells colL, ml ≤ q) ∧
    (∀ e : DF, getCol e "High" = none → yearHighField e = Except.error PyErr.keyError) ∧
    (∀ e : DF, getCol e "Low" = none → yearLowField e = Except.error PyErr.keyError) := by
  refine ⟨⟨?_, listMax_mem _ _ hmh, fun q hq => listMax_le _ _ _ hmh hq⟩,
          ⟨?_, listMin_mem _ _ hml, fun q hq => listMin_ge _ _ _ hml hq⟩,
          fun e hc => yearHighField_absent e hc,
          fun e hc => yearLowField_absent e hc⟩
  · rw [yearHighField_eq d colH hH, hmh]; rfl
  · rw [yearLowField_eq d colL hL, hml]; rfl

/-- C3 witness: on the three-bar frame the Year High is the maximal high
"$60.00" and the Year Low is the minimal low "$47.00". -/
theorem claim3_witness :
    yearHighField dfThreeBars = Except.ok (Val.str "$60.00") ∧
    yearLowField dfThreeBars = Except.ok (Val.str "$47.00") := by
  have h := claim3_period_extremum dfThreeBars
    [some 55, some 60, some 52] [some 48, some 47, some 50] 60 47
    rfl rfl (by decide) (by decide)
  have e1 : ("$" ++ fmt2 60) = "$60.00" := by norm_num [fmt2, rhe, qfloor]; decide
  have e2 : ("$" ++ fmt2 47) = "$47.00" := by norm_num [fmt2, rhe, qfloor]; decide
  exact ⟨by rw [h.1.1, e1], by rw [h.2.1.1, e2]⟩

/-- C4: the claim (and the spec's stated policy) says a previous close of
exactly 0 yields the "N/A" marker.  The code instead performs the float
division: on closes 0 then 110 it produces +inf, formatted "inf%", not
"N/A" — exactly the unguarded behavior the spec flags in its section 9. -/
theorem claim4_zero_previous_close : calculate_daily_change (some dfZeroPrev) = "inf%" := by
  simp only [calculate_daily_change, dfZeroPrev]
  norm_num [getCol, DF.emptyB, sget]

/-- C5 counterexample: the claim says the latest-value extraction returns
the "unavailable" marker when the field is non-numeric on the latest bar;
on a frame whose latest Close cell is NaN, `get_safe_value` instead
returns the NaN value itself, which is not the "N/A" marker. -/
theorem claim5_counterexample :
    get_safe_value (some dfNaNClose) "Close" (-1) (Val.str "N/A") = Val.nonNum ∧
    Val.nonNum ≠ Val.str "N/A" :=
  ⟨by decide, by decide⟩

/-- C5 amended: `get_safe_value` at index -1 returns the caller's default
exactly when the frame is None, empty, or the column is absent, and
otherwise returns the value of the column's last cell — including a NaN
cell, which is returned as the NaN value rather than the marker.  The
operation is total: every input falls into one of these cases. -/
theorem claim5_extract_latest (data : Option DF) (column : String) (defv : Val) :
    (data = none → get_safe_value data column (-1) defv = defv) ∧
    (∀ d : DF, data = some d → d.emptyB = true →
      get_safe_value data column (-1) defv = defv) ∧
    (∀ d : DF, data = some d → getCol d column = none →
      get_safe_value data column (-1) defv = defv) ∧
    (∀ (d : DF) (cells : List Cell) (cell : Cell), data = some d → d.emptyB = false →
      getCol d column = some cells → 0 < cells.length →
      cells.get? (cells.length - 1) = some cell →
      get_safe_value data column (-1) defv = cellVal cell) := by
  refine ⟨?_, ?_, ?_, ?_⟩
  · intro h; subst h; rfl
  · intro d h he; subst h
    simp only [get_safe_value, if_pos he]
  · intro d h hc; subst h
    simp only [get_safe_value]
    by_cases he : d.emptyB = true
    · rw [if_pos he]
    · rw [if_neg he]
      simp only [hc]
  · intro d cells cell h he hc hlen hcell; subst h
    have hs : sget cells (-1) = Except.ok cell := sget_last cells cell hlen hcell
    simp only [get_safe_value]
    rw [he, if_neg Bool.false_ne_true]
    simp only [hc, hs]

/-- C5 witness: on the well-formed single-bar frame the latest Close is
extracted as the number 50. -/
theorem claim5_witness :
    get_safe_value (some dfOneBar) "Close" (-1) (Val.str "N/A") = Val.num 50 :=
  (claim5_extract_latest (some dfOneBar) "Close" (Val.str "N/A")).2.2.2
    dfOneBar [some 50] (some 50) rfl rfl rfl (by decide) rfl

/-- C6: on a well-formed single-bar frame (one row, Close/High/Low columns
each holding that bar's numeric value), the daily change is "N/A" while the
latest-value extraction and the period extrema succeed with values taken
from the single bar. -/
theorem claim6_single_bar (d : DF) (cl hi lo : ℚ)
    (hn : d.nrows = 1) (he : d.emptyB = false)
    (hc : getCol d "Close" = some [some cl])
    (hh : getCol d "High" = some [some hi])
    (hl : getCol d "Low" = some [some lo]) :
    calculate_daily_change (some d) = "N/A" ∧
    get_safe_value (some d) "Close" (-1) (Val.str "N/A") = Val.num cl ∧
    yearHighField d = Except.ok (Val.str ("$" ++ fmt2 hi)) ∧
    yearLowField d = Except.ok (Val.str ("$" ++ fmt2 lo)) := by
  refine ⟨?_, ?_, ?_, ?_⟩
  · simp only [calculate_daily_change]
    rw [he, if_neg Bool.false_ne_true, if_pos (show d.nrows < 2 by omega)]
  · have hs : sget [some cl] (-1) = Except.ok (some cl) :=
      sget_last [some cl] (some cl) (by simp) rfl
    simp only [get_safe_value]
    rw [he, if_neg Bool.false_ne_true]
    simp only [hc, hs]
    rfl
  · exact yearHighField_eq d [some hi] hh
  · exact yearLowField_eq d [some lo] hl

/-- C6 witness: the spec scenario bar (close 50, high 55, low 48) gives
"N/A", the number 50, "$55.00" and "$48.00". -/
theorem claim6_witness :
    calculate_daily_change (some dfOneBar) = "N/A" ∧
    get_safe_value (some dfOneBar) "Close" (-1) (Val.str "N/A") = Val.num 50 ∧
    yearHighField dfOneBar = Except.ok (Val.str "$55.00") ∧
    yearLowField dfOneBar = Except.ok (Val.str "$48.00") := by
  have h := claim6_single_bar dfOneBar 50 55 48 rfl rfl rfl rfl rfl
  have e1 : ("$" ++ fmt2 55) = "$55.00" := by norm_num [fmt2, rhe, qfloor]; decide
  have e2 : ("$" ++ fmt2 48) = "$48.00" := by norm_num [fmt2, rhe, qfloor]; decide
  exact ⟨h.1, h.2.1, by rw [h.2.2.1, e1], by rw [h.2.2.2, e2]⟩

/-- C7 counterexample: the claim says that on every non-empty series with
some fields missing each metric degrades to "unavailable" on its own and
never affects the others; on a non-empty frame without a High column the
Year High metric instead raises, and the whole record computation aborts
with it. -/
theorem claim7_counterexample :
    yearHighField dfCloseVol = Except.error PyErr.keyError ∧
    build_row "BHP Group" "BHP.AX" dfCloseVol = Except.error PyErr.keyError :=
  ⟨by decide, by decide⟩

/-- C7 amended: each of the five metrics reads the frame only through its
emptiness, its row count and its own column, so a change confined to one
column (including a value becoming unavailable there) never alters any
other field of the record; but a missing High or Low column makes its
metric raise, aborting the whole record, rather than degrade alone. -/
theorem claim7_field_independence (d₁ d₂ : DF)
    (he : d₁.emptyB = d₂.emptyB) (hn : d₁.nrows = d₂.nrows) :
    (getCol d₁ "Close" = getCol d₂ "Close" →
      priceField d₁ = priceField d₂ ∧
      calculate_daily_change (some d₁) = calculate_daily_change (some d₂)) ∧
    (getCol d₁ "Volume" = getCol d₂ "Volume" → volumeField d₁ = volumeField d₂) ∧
    (getCol d₁ "High" = getCol d₂ "High" → yearHighField d₁ = yearHighField d₂) ∧
    (getCol d₁ "Low" = getCol d₂ "Low" → yearLowField d₁ = yearLowField d₂) :=
  ⟨fun hc => ⟨priceField_congr d₁ d₂ he hc, daily_change_congr d₁ d₂ he hn hc⟩,
   fun hc => volumeField_congr d₁ d₂ he hc,
   fun hc => yearHighField_congr d₁ d₂ he hc,
   fun hc => yearLowField_congr d₁ d₂ he hc⟩

/-- C7 witness: two frames sharing the Close column but differing in the
Volume column produce identical price and daily-change fields. -/
theorem claim7_witness :
    priceField dfIndepA = priceField dfIndepB ∧
    calculate_daily_change (some dfIndepA) = calculate_daily_change (some dfIndepB) :=
  (claim7_field_independence dfIndepA dfIndepB rfl rfl).1 rfl

/-- C8: the Summary loop skips every instrument whose fetch yields no
data; when the per-instrument frames that do arrive carry High and Low
columns, the loop produces exactly one row per instrument with data, in
selection order; and when every selected instrument yields no data, the
aggregate view is a single "no data available" notice with zero table
rows. -/
theorem claim8_summary_aggregation (tickers : String → String)
    (provider : String → Except PyErr DF) (selected : List String)
    (hdisp : ∀ c ∈ selected, ∀ d : DF, load_stock_data (provider (tickers c)) = some d →
      (getCol d "High").isSome ∧ (getCol d "Low").isSome) :
    ∃ rows, build_summary tickers provider selected = Except.ok rows ∧
      rows.map Row.company =
        selected.filter (fun c => (load_stock_data (provider (tickers c))).isSome) ∧
      ((∀ c ∈ selected, load_stock_data (provider (tickers c)) = none) →
        rows = [] ∧
        render_summary rows = SummaryView.notice "No data available for the selected stocks") := by
  revert hdisp
  induction selected with
  | nil =>
    intro _
    exact ⟨[], rfl, rfl, fun _ => ⟨rfl, rfl⟩⟩
  | cons c rest ih =>
    intro hdisp
    obtain ⟨rows, h1, h2, h3⟩ :=
      ih fun c' hc' d hd => hdisp c' (List.mem_cons_of_mem _ hc') d hd
    cases hload : load_stock_data (provider (tickers c)) with
    | none =>
      refine ⟨rows, ?_, ?_, ?_⟩
      · simp only [build_summary, hload, h1]
      · rw [h2]
        simp [List.filter_cons, hload]
      · intro hall
        exact h3 fun c' hc' => hall c' (List.mem_cons_of_mem _ hc')
    | some d =>
      obtain ⟨hH, hL⟩ := hdisp c (List.mem_cons_self _ _) d hload
      obtain ⟨colH, hcolH⟩ := Option.isSome_iff_exists.mp hH
      obtain ⟨colL, hcolL⟩ := Option.isSome_iff_exists.mp hL
      obtain ⟨r, hr, hrc⟩ := build_row_ok c (tickers c) d colH colL hcolH hcolL
      refine ⟨r :: rows, ?_, ?_, ?_⟩
      · simp only [build_summary, hload, hr, h1]
      · rw [List.map_cons, hrc, h2]
        simp [List.filter_cons, hload]
      · intro hall
        exact absurd (hall c (List.mem_cons_self _ _)) (by simp [hload])

/-- C8 witness: with a single selected ticker whose fetch raises, the
summary holds zero rows and renders as the single notice. -/
theorem claim8_witness :
    build_summary (fun t => t) (fun _ => Except.error PyErr.keyError) ["BHP.AX"] =
      Except.ok [] ∧
    render_summary [] = SummaryView.notice "No data available for the selected stocks" := by
  obtain ⟨rows, h1, h2, h3⟩ :=
    claim8_summary_aggregation (fun t => t) (fun _ => Except.error PyErr.keyError) ["BHP.AX"]
      (by intro c hc d hd; exact absurd hd (by simp [load_stock_data]))
  obtain ⟨hr0, hr1⟩ := h3 (by intro c hc; rfl)
  subst hr0
  exact ⟨h1, hr1⟩

/-- C9: the fetch boundary never lets a provider failure escape: whatever
the provider interaction's outcome, `load_stock_data` returns either None
or a non-empty frame; a raised provider exception maps to None, the same
result as an empty fetch. -/
theorem claim9_fetch_boundary (r : Except PyErr DF) :
    (load_stock_data r = none ∨ ∃ d, load_stock_data r = some d ∧ d.emptyB = false) ∧
    (∀ e : PyErr, load_stock_data (Except.error e) = none) ∧
    (∀ hist : DF, hist.emptyB = true → load_stock_data (Except.ok hist) = none) := by
  refine ⟨?_, fun e => rfl, fun hist hh => ?_⟩
  · cases r with
    | error e => exact Or.inl rfl
    | ok hist =>
      by_cases hh : hist.emptyB = true
      · exact Or.inl (by simp only [load_stock_data, if_pos hh])
      · refine Or.inr ⟨hist, by simp only [load_stock_data, if_neg hh], ?_⟩
        cases he : hist.emptyB with
        | false => rfl
        | true => exact absurd he hh
  · simp only [load_stock_data, if_pos hh]

/-- C9 witness: a provider exception and an empty fetch both map to None. -/
theorem claim9_witness :
    load_stock_data (Except.error PyErr.keyError) = none ∧
    load_stock_data (Except.ok dfEmpty) = none := by
  have h := claim9_fetch_boundary (Except.error PyErr.keyError)
  exact ⟨h.2.1 PyErr.keyError, h.2.2 dfEmpty rfl⟩

/-- C10: `get_safe_value` returns its caller-supplied default whenever
extraction fails (None frame, empty frame, or absent column); with the
dashboard's defaults, a failed High extraction yields the number 0 while a
failed Close extraction yields the string "N/A", and the failed-High
result is identical to the extraction from a frame whose latest High is a
genuine price of 0. -/
theorem claim10_default_markers :
    (∀ (column : String) (i : ℤ) (defv : Val), get_safe_value none column i defv = defv) ∧
    (∀ (d : DF) (column : String) (i : ℤ) (defv : Val), d.emptyB = true →
      get_safe_value (some d) column i defv = defv) ∧
    (∀ (d : DF) (column : String) (i : ℤ) (defv : Val), getCol d column = none →
      get_safe_value (some d) column i defv = defv) ∧
    get_safe_value (some dfVolOnly) "High" (-1) (Val.num 0) = Val.num 0 ∧
    get_safe_value (some dfVolOnly) "Close" (-1) (Val.str "N/A") = Val.str "N/A" ∧
    get_safe_value (some dfZeroHigh) "High" (-1) (Val.num 0) =
      get_safe_value (some dfVolOnly) "High" (-1) (Val.num 0) := by
  refine ⟨fun column i defv => rfl, ?_, ?_, by decide, by decide, by decide⟩
  · intro d column i defv he
    simp only [get_safe_value, if_pos he]
  · intro d column i defv hc
    simp only [get_safe_value]
    by_cases he : d.emptyB = true
    · rw [if_pos he]
    · rw [if_neg he]
      simp only [hc]

/-- C10 witness: on the empty frame the Close extraction with the
dashboard's default yields the "N/A" marker. -/
theorem claim10_witness :
    get_safe_value (some dfEmpty) "Close" (-1) (Val.str "N/A") = Val.str "N/A" :=
  claim10_default_markers.2.1 dfEmpty "Close" (-1) (Val.str "N/A") rfl

end StockTracker
